import Mathlib

/-!
# The SDL display driver `drv_sdl.c`

A shallow embedding of the six driver functions of `src/drv_sdl.c`
(`display_clear`, `display_init`, `display_close`, `display_plot`,
`display_line`, `kbhit`).  The driver is a sequence of calls into SDL2 and libc,
so every function is embedded as a function from the driver's globals and the
answers of the library to the list of actions it performs, the new globals and
the way it ends.
-/

namespace DrvSdl

/-! ## Data model -/

/-- A C pointer; `0` is `NULL`. -/
abbrev Ptr := Nat

/-- The constants of `<SDL2/SDL.h>` the driver names.  The header is not part of
the repository, so they are taken as a parameter of every function. -/
structure SDLHeader where
  SDL_INIT_VIDEO : Nat
  SDL_WINDOWPOS_CENTERED : Int
  SDL_WINDOW_SHOWN : Nat
  SDL_RENDERER_ACCELERATED : Nat
  SDL_RENDERER_PRESENTVSYNC : Nat
  SDL_QUIT : Nat
  SDL_KEYDOWN : Nat
  SDL_MOUSEBUTTONDOWN : Nat
  SDL_NUM_SCANCODES : Nat
  deriving DecidableEq, Repr

/-- The values of these constants in the SDL 2 headers. -/
def sdl2 : SDLHeader where
  SDL_INIT_VIDEO := 0x20
  SDL_WINDOWPOS_CENTERED := 0x2FFF0000
  SDL_WINDOW_SHOWN := 0x4
  SDL_RENDERER_ACCELERATED := 0x2
  SDL_RENDERER_PRESENTVSYNC := 0x4
  SDL_QUIT := 0x100
  SDL_KEYDOWN := 0x300
  SDL_MOUSEBUTTONDOWN := 0x401
  SDL_NUM_SCANCODES := 512

/-- Modelled from the spec: the 3-component colour vector type of `drv.h`, which
is not part of the repository.  The components are taken to be finite `double`s,
each held as the rational it denotes; NaN and the infinities are left out. -/
abbrev COORD3 := Fin 3 → ℚ

/-- One action of the driver, in program order: a call into SDL (with the value
it returned, where the driver looks at it), a call into libc, or a read of the
keyboard-state array owned by SDL. -/
inductive Action where
  | SDL_Init (flags : Nat) (ret : Int)
  | SDL_GetError
  | SDL_CreateWindow (title : String) (x y w h : Int) (flags : Nat) (ret : Ptr)
  | SDL_CreateRenderer (window : Ptr) (index : Int) (flags : Nat) (ret : Ptr)
  | SDL_DestroyRenderer (renderer : Ptr)
  | SDL_DestroyWindow (window : Ptr)
  | SDL_Quit
  | SDL_SetRenderDrawColor (renderer : Ptr) (r g b a : Nat)
  | SDL_RenderClear (renderer : Ptr)
  | SDL_RenderPresent (renderer : Ptr)
  | SDL_RenderDrawPoint (renderer : Ptr) (x y : Int)
  | SDL_RenderDrawLine (renderer : Ptr) (x0 y0 x1 y1 : Int)
  /-- The call `SDL_PollEvent(&event)`: `none` when it returned 0, `some ty` when it
  returned 1 and stored an event with `event.type = ty`. -/
  | SDL_PollEvent (ret : Option Nat)
  | SDL_PumpEvents
  | SDL_GetKeyboardState
  /-- The read `state[i]` of the keyboard-state array. -/
  | read_state (i : Nat)
  /-- The call `fprintf(stderr, fmt, ...)`. -/
  | fprintf_stderr (fmt : String)
  /-- The call `exit(status)`. -/
  | exit (status : Int)
  deriving DecidableEq, Repr

/-- The actions that are calls into the SDL library. -/
def Action.isSDL : Action → Bool
  | .read_state _ => false
  | .fprintf_stderr _ => false
  | .exit _ => false
  | _ => true

/-- The process-wide variables of the driver, lines 42-48. -/
structure Globals where
  window : Ptr
  renderer : Ptr
  width : Nat
  height : Nat
  depth : Nat
  deriving DecidableEq, Repr

/-- The initial values of the globals. -/
def Globals.initial : Globals :=
  { window := 0, renderer := 0, width := 512, height := 512, depth := 8 }

/-- How a run of a driver function ends. -/
inductive Outcome where
  /-- The function returned; `none` for a `void` function. -/
  | returned (value : Option Int)
  /-- The function called `exit(status)`. -/
  | exited (status : Int)
  /-- The function is still inside the wait loop of `display_close` when the
  model stops looking (the fuel of that loop is used up). -/
  | waiting
  /-- The function read outside the keyboard-state array. -/
  | undefined
  deriving DecidableEq, Repr

/-- A run of a driver function: the actions in program order, the globals
afterwards and the way the run ends. -/
structure Run where
  trace : List Action
  globals : Globals
  outcome : Outcome
  deriving DecidableEq, Repr

/-- What the library answers during one run: the return values of `SDL_Init`,
`SDL_CreateWindow` and `SDL_CreateRenderer`, the event queue as a sequence of
batches (batch `i` holds the `event.type` of the events `SDL_PollEvent` returns
before it returns 0 for the `i+1`-th time), and the keyboard-state array. -/
structure Library where
  init_ret : Int
  window_ret : Ptr
  renderer_ret : Ptr
  queue : Nat → List Nat
  state : List Nat

/-! ## Colour conversion

The components of a colour are `double`s and `c * 255` is a `double` product:
the exact product rounded to the nearest binary64 number, ties to even (the
default rounding mode, each operation evaluated in its own type).  A finite
`double` is held as the rational it denotes.
-/

/-- Rounding to the nearest integer, ties to the even one. -/
def round_half_even (y : ℚ) : ℤ :=
  if y - ⌊y⌋ < 1 / 2 then ⌊y⌋
  else if 1 / 2 < y - ⌊y⌋ then ⌊y⌋ + 1
  else if ⌊y⌋ % 2 = 0 then ⌊y⌋ else ⌊y⌋ + 1

/-- The exponent of the spacing of the binary64 numbers around `x`: 52 below the
exponent of `x`, which is at least -1022 (below it the numbers are subnormal and
the spacing stays `2 ^ (-1074)`). -/
def ulp_exp (x : ℚ) : ℤ := max (Int.log 2 |x|) (-1022) - 52

/-- The result of a `double` operation whose exact result is `x`: the nearest
multiple of the spacing around `x`, ties to even.  The exponent is not bounded
above: a result beyond the largest `double` is infinite in C, and its conversion
to `int` is undefined like that of every value beyond the range of `int`. -/
def fl (x : ℚ) : ℚ := round_half_even (x / 2 ^ ulp_exp x) * 2 ^ ulp_exp x

/-- The C conversion `(int)x` of a finite `double`, `int` having 32 bits:
truncation toward zero, and `none` where C leaves the conversion undefined, the
truncated value lying outside the range of `int`. -/
def c_int (x : ℚ) : Option Int :=
  let t : Int := if 0 ≤ x then ⌊x⌋ else ⌈x⌉
  if -2147483648 ≤ t ∧ t ≤ 2147483647 then some t else none

/-- The conversion of an `int` argument to a `Uint8` parameter: reduction
modulo 256. -/
def to_Uint8 (n : Int) : Nat := (n % 256).toNat

/-- A colour component as it reaches `SDL_SetRenderDrawColor`:
`int r = (int)(c * 255)` passed as a `Uint8`; `none` where the conversion to
`int` is undefined. -/
def channel_of (c : ℚ) : Option Nat := (c_int (fl (c * 255))).map to_Uint8

/-- The channel as an argument of the call.  Where the conversion to `int` is
undefined in C the model takes the argument to be 0. -/
def channel (c : ℚ) : Nat := (channel_of c).getD 0

/-! ## The driver functions -/

/-- `display_clear`, lines 50-56. -/
def display_clear (g : Globals) : Run :=
  { trace := [.SDL_SetRenderDrawColor g.renderer 0 0 0 255,
              .SDL_RenderClear g.renderer,
              .SDL_RenderPresent g.renderer],
    globals := g,
    outcome := .returned none }

/-- `display_init`, lines 58-89. -/
def display_init (K : SDLHeader) (L : Library) (g : Globals)
    (xres yres : Int) (bk_color : COORD3) : Run :=
  let t0 : List Action := [.SDL_Init K.SDL_INIT_VIDEO L.init_ret]
  if L.init_ret ≠ 0 then
    { trace := t0 ++ [.SDL_GetError, .fprintf_stderr "SDL_Init Error: %s\n", .exit 1],
      globals := g,
      outcome := .exited 1 }
  else
    let g1 : Globals := { g with window := L.window_ret }
    let t1 : List Action := t0 ++
      [.SDL_CreateWindow "SDL Driver" K.SDL_WINDOWPOS_CENTERED K.SDL_WINDOWPOS_CENTERED
        xres yres K.SDL_WINDOW_SHOWN L.window_ret]
    if g1.window = 0 then
      { trace := t1 ++ [.SDL_GetError, .fprintf_stderr "SDL_CreateWindow Error: %s\n",
                        .SDL_Quit, .exit 1],
        globals := g1,
        outcome := .exited 1 }
    else
      let g2 : Globals := { g1 with renderer := L.renderer_ret }
      let t2 : List Action := t1 ++
        [.SDL_CreateRenderer g1.window (-1)
          (K.SDL_RENDERER_ACCELERATED ||| K.SDL_RENDERER_PRESENTVSYNC) L.renderer_ret]
      if g2.renderer = 0 then
        { trace := t2 ++ [.SDL_DestroyWindow g2.window, .SDL_GetError,
                          .fprintf_stderr "SDL_CreateRenderer Error: %s\n",
                          .SDL_Quit, .exit 1],
          globals := g2,
          outcome := .exited 1 }
      else
        let r := channel (bk_color 0)
        let gr := channel (bk_color 1)
        let b := channel (bk_color 2)
        { trace := t2 ++ [.SDL_SetRenderDrawColor g2.renderer r gr b 255,
                          .SDL_RenderClear g2.renderer,
                          .SDL_RenderPresent g2.renderer],
          globals := g2,
          outcome := .returned none }

/-- The test of line 100 on `event.type`. -/
def is_exit_event (K : SDLHeader) (ty : Nat) : Bool :=
  ty == K.SDL_QUIT || ty == K.SDL_KEYDOWN || ty == K.SDL_MOUSEBUTTONDOWN

/-- The inner loop of `display_close`, lines 99-103, over one batch of the event
queue: the value of `done` when `SDL_PollEvent` returns 0, and the calls made. -/
def poll_batch (K : SDLHeader) : Bool → List Nat → Bool × List Action
  | done, [] => (done, [.SDL_PollEvent none])
  | done, ty :: rest =>
    let r := poll_batch K (if is_exit_event K ty then true else done) rest
    (r.1, .SDL_PollEvent (some ty) :: r.2)

/-- The outer loop of `display_close`, lines 98-104, entered with `i` batches of
the queue already consumed.  It gives the number of batches consumed when the
loop is left (`none` when the fuel is used up first) and the calls made. -/
def wait_loop (K : SDLHeader) (queue : Nat → List Nat) :
    Nat → Nat → Bool → Option Nat × List Action
  | _, i, true => (some i, [])
  | 0, _, false => (none, [])
  | fuel + 1, i, false =>
    let b := poll_batch K false (queue i)
    let r := wait_loop K queue fuel (i + 1) b.1
    (r.1, b.2 ++ r.2)

/-- The teardown of `display_close`, lines 107-109. -/
def teardown (g : Globals) : List Action :=
  [.SDL_DestroyRenderer g.renderer, .SDL_DestroyWindow g.window, .SDL_Quit]

/-- `display_close`, lines 91-110.  `fuel` bounds the number of iterations of
the outer wait loop the model follows. -/
def display_close (K : SDLHeader) (L : Library) (fuel : Nat) (g : Globals)
    (wait_flag : Int) : Run :=
  if wait_flag ≠ 0 then
    let w := wait_loop K L.queue fuel 0 false
    match w.1 with
    | none => { trace := w.2, globals := g, outcome := .waiting }
    | some _ => { trace := w.2 ++ teardown g, globals := g, outcome := .returned none }
  else
    { trace := teardown g, globals := g, outcome := .returned none }

/-- `display_plot`, lines 113-123. -/
def display_plot (g : Globals) (x y : Int) (color : COORD3) : Run :=
  let r := channel (color 0)
  let gr := channel (color 1)
  let b := channel (color 2)
  { trace := [.SDL_SetRenderDrawColor g.renderer r gr b 255,
              .SDL_RenderDrawPoint g.renderer x y,
              .SDL_RenderPresent g.renderer],
    globals := g,
    outcome := .returned none }

/-- `display_line`, lines 125-135. -/
def display_line (g : Globals) (x0 y0 x1 y1 : Int) (color : COORD3) : Run :=
  let r := channel (color 0)
  let gr := channel (color 1)
  let b := channel (color 2)
  { trace := [.SDL_SetRenderDrawColor g.renderer r gr b 255,
              .SDL_RenderDrawLine g.renderer x0 y0 x1 y1,
              .SDL_RenderPresent g.renderer],
    globals := g,
    outcome := .returned none }

/-- The loop of `kbhit`, lines 142-147, at index `i` with `remaining =
SDL_NUM_SCANCODES - i` iterations to go: the reads made and the value returned
(`none` when a read falls outside the array `state`). -/
def kbhit_loop (state : List Nat) : Nat → Nat → List Action × Option Int
  | _, 0 => ([], some 0)
  | i, remaining + 1 =>
    match state[i]? with
    | none => ([.read_state i], none)
    | some v =>
      if v ≠ 0 then ([.read_state i], some 1)
      else
        let r := kbhit_loop state (i + 1) remaining
        (.read_state i :: r.1, r.2)

/-- `kbhit`, lines 137-148. -/
def kbhit (K : SDLHeader) (L : Library) (g : Globals) : Run :=
  let r := kbhit_loop L.state 0 K.SDL_NUM_SCANCODES
  { trace := [.SDL_PumpEvents, .SDL_GetKeyboardState] ++ r.1,
    globals := g,
    outcome := match r.2 with
      | none => .undefined
      | some v => .returned (some v) }

/-- A call of one of the six driver functions, with its arguments. -/
inductive Op where
  | display_clear
  | display_init (xres yres : Int) (bk_color : COORD3)
  | display_close (wait_flag : Int)
  | display_plot (x y : Int) (color : COORD3)
  | display_line (x0 y0 x1 y1 : Int) (color : COORD3)
  | kbhit

/-- Running one call of a driver function. -/
def Op.run (K : SDLHeader) (L : Library) (fuel : Nat) (g : Globals) : Op → Run
  | .display_clear => DrvSdl.display_clear g
  | .display_init xres yres bk_color => DrvSdl.display_init K L g xres yres bk_color
  | .display_close wait_flag => DrvSdl.display_close K L fuel g wait_flag
  | .display_plot x y color => DrvSdl.display_plot g x y color
  | .display_line x0 y0 x1 y1 color => DrvSdl.display_line g x0 y0 x1 y1 color
  | .kbhit => DrvSdl.kbhit K L g

/-- The call `display_init(xres, yres, bk_color)` followed, when it returns, by
`display_close(wait_flag)`. -/
def init_then_close (K : SDLHeader) (L : Library) (fuel : Nat) (g : Globals)
    (xres yres : Int) (bk_color : COORD3) (wait_flag : Int) : Run :=
  let a := display_init K L g xres yres bk_color
  match a.outcome with
  | .returned _ =>
    let c := display_close K L fuel a.globals wait_flag
    { c with trace := a.trace ++ c.trace }
  | _ => a

/-! ## Predicates on actions, sample inputs and the notions the statements use -/

/-- The actions that are one of the three checked calls and report failure:
`SDL_Init` returning non-zero, `SDL_CreateWindow` or `SDL_CreateRenderer`
returning `NULL`. -/
def Action.failed : Action → Bool
  | .SDL_Init _ ret => ret != 0
  | .SDL_CreateWindow _ _ _ _ _ _ ret => ret == 0
  | .SDL_CreateRenderer _ _ _ ret => ret == 0
  | _ => false

/-- The calls of `SDL_Init`. -/
def Action.isInit : Action → Bool
  | .SDL_Init _ _ => true
  | _ => false

/-- The calls of `SDL_CreateWindow`. -/
def Action.isCreateWindow : Action → Bool
  | .SDL_CreateWindow _ _ _ _ _ _ _ => true
  | _ => false

/-- The calls of `SDL_CreateRenderer`. -/
def Action.isCreateRenderer : Action → Bool
  | .SDL_CreateRenderer _ _ _ _ => true
  | _ => false

/-- The draw-colour, clear and present calls. -/
def Action.isDraw : Action → Bool
  | .SDL_SetRenderDrawColor _ _ _ _ _ => true
  | .SDL_RenderClear _ => true
  | .SDL_RenderPresent _ => true
  | _ => false

/-- The writes of a diagnostic to `stderr`. -/
def Action.isDiagnostic : Action → Bool
  | .fprintf_stderr _ => true
  | _ => false

/-- The calls of `exit`. -/
def Action.isExit : Action → Bool
  | .exit _ => true
  | _ => false

/-- A library in which the three checked calls succeed, the event queue holds a
mouse-motion event, then a key-down event and a key-up event in the next batch,
and no key is held. -/
def lib_ok : Library :=
  { init_ret := 0, window_ret := 0x1000, renderer_ret := 0x2000,
    queue := fun i => if i = 0 then [0x400] else if i = 1 then [0x300, 0x301] else [],
    state := List.replicate 512 0 }

/-- A library in which `SDL_CreateRenderer` fails. -/
def lib_no_renderer : Library := { lib_ok with renderer_ret := 0 }

/-- A colour: orange. -/
def orange : COORD3 := ![1, 1 / 2, 0]

/-- The `SDL_PollEvent` calls that consume one batch: one per event, then the
call that returns 0. -/
def batch_polls (evs : List Nat) : List Action :=
  evs.map (fun ty => Action.SDL_PollEvent (some ty)) ++ [.SDL_PollEvent none]

/-- The `SDL_PollEvent` calls that consume batches `i, ..., i + n - 1` whole. -/
def batches_polls (queue : Nat → List Nat) : Nat → Nat → List Action
  | _, 0 => []
  | i, n + 1 => batch_polls (queue i) ++ batches_polls queue (i + 1) n

/-- The batch holds an event of type quit, key-down or mouse-button-down. -/
def has_exit_event (K : SDLHeader) (evs : List Nat) : Bool :=
  evs.any (is_exit_event K)

/-- The SDL resources alive at a point of a trace: the windows, and the
renderers, each with the window it was created on. -/
structure Live where
  windows : List Ptr
  renderers : List (Ptr × Ptr)
  deriving DecidableEq, Repr

/-- The effect of one action on the live resources: a creation call that
returns non-null adds its resource, a destruction call removes its resource
only, `SDL_Quit` removes everything. -/
def Live.step (s : Live) : Action → Live
  | .SDL_CreateWindow _ _ _ _ _ _ ret =>
    if ret ≠ 0 then { s with windows := ret :: s.windows } else s
  | .SDL_CreateRenderer w _ _ ret =>
    if ret ≠ 0 then { s with renderers := (ret, w) :: s.renderers } else s
  | .SDL_DestroyRenderer r => { s with renderers := s.renderers.filter (fun p => p.1 ≠ r) }
  | .SDL_DestroyWindow w => { s with windows := s.windows.filter (fun v => v ≠ w) }
  | .SDL_Quit => { windows := [], renderers := [] }
  | _ => s

/-- The resources alive after the actions `t`, from a process start. -/
def live_after (t : List Action) : Live :=
  t.foldl Live.step { windows := [], renderers := [] }

/-- Every live renderer is on a live window. -/
def Live.ok (s : Live) : Prop := ∀ p ∈ s.renderers, p.2 ∈ s.windows

/-- The action respects the lifetimes: a renderer is created on a non-null live
window, and a window is destroyed when no renderer is alive. -/
def Live.admits (s : Live) : Action → Prop
  | .SDL_CreateRenderer w _ _ _ => w ≠ 0 ∧ w ∈ s.windows
  | .SDL_DestroyWindow _ => s.renderers = []
  | _ => True

/-- The invariant holds now and at every later point of `t`, and every action of
`t` respects the lifetimes. -/
def safe_from (s : Live) : List Action → Prop
  | [] => s.ok
  | a :: t => s.ok ∧ s.admits a ∧ safe_from (s.step a) t

/-- The calls into SDL of a run, in order. -/
def sdl_calls (r : Run) : List Action := r.trace.filter Action.isSDL

/-! # Theorems -/

/-! ## `display_init` -/

/-- C1: when `SDL_Init` returns non-zero, or window creation or renderer creation
returns `NULL`, `display_init` writes a diagnostic to `stderr` and then ends the
process with `exit(1)` as its last action, calls none of the three checked
functions twice and issues no draw-colour, clear or present call; and whenever
`display_init` exits, one of the three checked calls it made had failed. -/
theorem display_init_exits_iff_failed (K : SDLHeader) (L : Library) (g : Globals)
    (xres yres : Int) (bk_color : COORD3) :
    ((L.init_ret ≠ 0 ∨ L.window_ret = 0 ∨ L.renderer_ret = 0) →
      (display_init K L g xres yres bk_color).outcome = .exited 1 ∧
      (∃ pre fmt post, (display_init K L g xres yres bk_color).trace
          = pre ++ .fprintf_stderr fmt :: post ∧ post.getLast? = some (.exit 1) ∧
          (∀ a ∈ pre ++ post.dropLast, a.isExit = false)) ∧
      ((display_init K L g xres yres bk_color).trace.filter Action.isInit).length ≤ 1 ∧
      ((display_init K L g xres yres bk_color).trace.filter Action.isCreateWindow).length ≤ 1 ∧
      ((display_init K L g xres yres bk_color).trace.filter Action.isCreateRenderer).length ≤ 1 ∧
      (∀ a ∈ (display_init K L g xres yres bk_color).trace, a.isDraw = false)) ∧
    ((∃ status, (display_init K L g xres yres bk_color).outcome = .exited status) →
      (∃ a ∈ (display_init K L g xres yres bk_color).trace, a.failed = true) ∧
      (L.init_ret ≠ 0 ∨ L.window_ret = 0 ∨ L.renderer_ret = 0)) := by
  by_cases h0 : L.init_ret = 0
  · by_cases h1 : L.window_ret = 0
    · refine ⟨fun _ => ⟨?_, ⟨[.SDL_Init K.SDL_INIT_VIDEO L.init_ret,
          .SDL_CreateWindow "SDL Driver" K.SDL_WINDOWPOS_CENTERED K.SDL_WINDOWPOS_CENTERED
            xres yres K.SDL_WINDOW_SHOWN L.window_ret, .SDL_GetError],
          "SDL_CreateWindow Error: %s\n", [.SDL_Quit, .exit 1], ?_, ?_, ?_⟩, ?_⟩, fun _ => ?_⟩ <;>
        simp [display_init, h0, h1, Action.isInit, Action.isCreateWindow,
          Action.isCreateRenderer, Action.isDraw, Action.isExit, Action.failed]
    · by_cases h2 : L.renderer_ret = 0
      · refine ⟨fun _ => ⟨?_, ⟨[.SDL_Init K.SDL_INIT_VIDEO L.init_ret,
            .SDL_CreateWindow "SDL Driver" K.SDL_WINDOWPOS_CENTERED K.SDL_WINDOWPOS_CENTERED
              xres yres K.SDL_WINDOW_SHOWN L.window_ret,
            .SDL_CreateRenderer L.window_ret (-1)
              (K.SDL_RENDERER_ACCELERATED ||| K.SDL_RENDERER_PRESENTVSYNC) L.renderer_ret,
            .SDL_DestroyWindow L.window_ret, .SDL_GetError],
            "SDL_CreateRenderer Error: %s\n", [.SDL_Quit, .exit 1], ?_, ?_, ?_⟩, ?_⟩, fun _ => ?_⟩ <;>
          simp [display_init, h0, h1, h2, Action.isInit, Action.isCreateWindow,
            Action.isCreateRenderer, Action.isDraw, Action.isExit, Action.failed]
      · refine ⟨fun h => ?_, fun h => ?_⟩
        · simp [h0, h1, h2] at h
        · simp [display_init, h0, h1, h2] at h
  · refine ⟨fun _ => ⟨?_, ⟨[.SDL_Init K.SDL_INIT_VIDEO L.init_ret, .SDL_GetError],
        "SDL_Init Error: %s\n", [.exit 1], ?_, ?_, ?_⟩, ?_⟩, fun _ => ?_⟩ <;>
      simp [display_init, h0, Action.isInit, Action.isCreateWindow,
        Action.isCreateRenderer, Action.isDraw, Action.isExit, Action.failed]

/-- Witness of C1: with a failing `SDL_CreateRenderer` the run of `display_init`
ends in `exit(1)`. -/
theorem display_init_exits_iff_failed_witness :
    (display_init sdl2 lib_no_renderer Globals.initial 640 480 orange).outcome = .exited 1 :=
  ((display_init_exits_iff_failed sdl2 lib_no_renderer Globals.initial 640 480 orange).1
    (Or.inr (Or.inr rfl))).1

/-- C2: when `SDL_Init`, `SDL_CreateWindow` and `SDL_CreateRenderer` all succeed,
`display_init` returns, neither exits nor writes a diagnostic, the global
`window` holds the window created by its one `SDL_CreateWindow` call, which asks
for the size `xres` by `yres`, and the global `renderer` holds the renderer
created by its one `SDL_CreateRenderer` call, which is made on that window. -/
theorem display_init_success (K : SDLHeader) (L : Library) (g : Globals)
    (xres yres : Int) (bk_color : COORD3)
    (hinit : L.init_ret = 0) (hwin : L.window_ret ≠ 0) (hren : L.renderer_ret ≠ 0) :
    (display_init K L g xres yres bk_color).outcome = .returned none ∧
    (∀ a ∈ (display_init K L g xres yres bk_color).trace,
      a.isDiagnostic = false ∧ a.isExit = false) ∧
    (display_init K L g xres yres bk_color).globals.window = L.window_ret ∧
    (display_init K L g xres yres bk_color).trace.filter Action.isCreateWindow =
      [.SDL_CreateWindow "SDL Driver" K.SDL_WINDOWPOS_CENTERED K.SDL_WINDOWPOS_CENTERED
        xres yres K.SDL_WINDOW_SHOWN L.window_ret] ∧
    (display_init K L g xres yres bk_color).globals.renderer = L.renderer_ret ∧
    (display_init K L g xres yres bk_color).trace.filter Action.isCreateRenderer =
      [.SDL_CreateRenderer L.window_ret (-1)
        (K.SDL_RENDERER_ACCELERATED ||| K.SDL_RENDERER_PRESENTVSYNC) L.renderer_ret] := by
  simp [display_init, hinit, hwin, hren, Action.isCreateWindow, Action.isCreateRenderer,
    Action.isDiagnostic, Action.isExit]

/-- Witness of C2: a run of `display_init` in which the three calls succeed. -/
theorem display_init_success_witness :
    lib_ok.init_ret = 0 ∧ lib_ok.window_ret ≠ 0 ∧ lib_ok.renderer_ret ≠ 0 ∧
    (display_init sdl2 lib_ok Globals.initial 640 480 orange).outcome = .returned none :=
  ⟨rfl, by decide, by decide,
    (display_init_success sdl2 lib_ok Globals.initial 640 480 orange rfl
      (by decide) (by decide)).1⟩

/-! ## Drawing -/

/-- C8: `display_plot` issues exactly set-draw-colour with the converted colour
and alpha 255, draw-point at the caller's `(x, y)`, present; `display_line`
issues exactly set-draw-colour with the converted colour and alpha 255,
draw-line with the caller's `(x0, y0, x1, y1)`, present; both return and leave
the globals alone. -/
theorem display_plot_line_calls (g : Globals) (x y x0 y0 x1 y1 : Int) (color : COORD3) :
    display_plot g x y color =
      { trace := [.SDL_SetRenderDrawColor g.renderer (channel (color 0))
                    (channel (color 1)) (channel (color 2)) 255,
                  .SDL_RenderDrawPoint g.renderer x y,
                  .SDL_RenderPresent g.renderer],
        globals := g, outcome := .returned none } ∧
    display_line g x0 y0 x1 y1 color =
      { trace := [.SDL_SetRenderDrawColor g.renderer (channel (color 0))
                    (channel (color 1)) (channel (color 2)) 255,
                  .SDL_RenderDrawLine g.renderer x0 y0 x1 y1,
                  .SDL_RenderPresent g.renderer],
        globals := g, outcome := .returned none } :=
  ⟨rfl, rfl⟩

/-- C10: after a `display_init` that returned, `display_clear` issues exactly
set-draw-colour(0, 0, 0, 255), clear, present on the renderer, whatever
`bk_color` was, while `display_init` ended with set-draw-colour of the converted
`bk_color`, clear, present on the same renderer; so when the converted channels
are not all zero the two fill colours differ. -/
theorem display_clear_ignores_bk_color (K : SDLHeader) (L : Library) (g : Globals)
    (xres yres : Int) (bk_color : COORD3)
    (hret : (display_init K L g xres yres bk_color).outcome = .returned none) :
    (display_clear (display_init K L g xres yres bk_color).globals).trace =
      [.SDL_SetRenderDrawColor L.renderer_ret 0 0 0 255,
       .SDL_RenderClear L.renderer_ret, .SDL_RenderPresent L.renderer_ret] ∧
    (display_init K L g xres yres bk_color).trace.filter Action.isDraw =
      [.SDL_SetRenderDrawColor L.renderer_ret (channel (bk_color 0))
         (channel (bk_color 1)) (channel (bk_color 2)) 255,
       .SDL_RenderClear L.renderer_ret, .SDL_RenderPresent L.renderer_ret] ∧
    (¬ (channel (bk_color 0) = 0 ∧ channel (bk_color 1) = 0 ∧ channel (bk_color 2) = 0) →
      (display_clear (display_init K L g xres yres bk_color).globals).trace ≠
        (display_init K L g xres yres bk_color).trace.filter Action.isDraw) := by
  by_cases h0 : L.init_ret = 0
  · by_cases h1 : L.window_ret = 0
    · simp [display_init, h0, h1] at hret
    · by_cases h2 : L.renderer_ret = 0
      · simp [display_init, h0, h1, h2] at hret
      · simp only [display_init, display_clear, h0, h1, h2]
        simp [Action.isDraw]
        intro h a b c
        exact h a.symm b.symm c.symm
  · simp [display_init, h0] at hret

/-- Witness of C10: `display_init` with an orange background returns, and the
`display_clear` after it sets the draw colour to black. -/
theorem display_clear_ignores_bk_color_witness :
    (display_init sdl2 lib_ok Globals.initial 640 480 orange).outcome = .returned none ∧
    (display_clear (display_init sdl2 lib_ok Globals.initial 640 480 orange).globals).trace =
      [.SDL_SetRenderDrawColor 0x2000 0 0 0 255,
       .SDL_RenderClear 0x2000, .SDL_RenderPresent 0x2000] :=
  ⟨rfl, (display_clear_ignores_bk_color sdl2 lib_ok Globals.initial 640 480 orange rfl).1⟩

/-! ## Colour channels -/

/-- The loop of `kbhit` inside the array: it returns 0 or 1, returns 1 exactly
when an entry it may look at is non-zero, and reads only indices it may look
at. -/
lemma kbhit_loop_spec (state : List Nat) (n : Nat) :
    ∀ i, i + n ≤ state.length →
      ∃ r, (kbhit_loop state i n).2 = some r ∧ (r = 0 ∨ r = 1) ∧
        (r = 1 ↔ ∃ j, i ≤ j ∧ j < i + n ∧ ∃ v, state[j]? = some v ∧ v ≠ 0) ∧
        (∀ a ∈ (kbhit_loop state i n).1, ∃ j, a = .read_state j ∧ i ≤ j ∧ j < i + n) := by
  induction n with
  | zero =>
    intro i _
    refine ⟨0, rfl, Or.inl rfl, ⟨fun h => by simp at h, ?_⟩, by simp [kbhit_loop]⟩
    rintro ⟨j, h1, h2, _⟩
    omega
  | succ n ih =>
    intro i hi
    have hlt : i < state.length := by omega
    have hget : state[i]? = some state[i] := List.getElem?_eq_getElem hlt
    by_cases hv : state[i] = 0
    · obtain ⟨r, hr, h01, hiff, hreads⟩ := ih (i + 1) (by omega)
      refine ⟨r, ?_, h01, ?_, ?_⟩
      · simp [kbhit_loop, hget, hv, hr]
      · rw [hiff]
        constructor
        · rintro ⟨j, h1, h2, h3⟩
          exact ⟨j, by omega, by omega, h3⟩
        · rintro ⟨j, h1, h2, v, h3, h4⟩
          have hne : j ≠ i := by
            rintro rfl
            rw [hget] at h3
            exact h4 (by rw [← Option.some.inj h3, hv])
          exact ⟨j, by omega, by omega, v, h3, h4⟩
      · intro a ha
        simp only [kbhit_loop, hget, hv, ne_eq, not_true_eq_false, ↓reduceIte,
          List.mem_cons] at ha
        rcases ha with rfl | ha
        · exact ⟨i, rfl, le_refl i, by omega⟩
        · obtain ⟨j, h1, h2, h3⟩ := hreads a ha
          exact ⟨j, h1, by omega, by omega⟩
    · refine ⟨1, by simp [kbhit_loop, hget, hv], Or.inr rfl,
        ⟨fun _ => ⟨i, le_refl i, by omega, state[i], hget, hv⟩, fun _ => rfl⟩, ?_⟩
      intro a ha
      simp only [kbhit_loop, hget, hv, ne_eq, not_false_eq_true, ↓reduceIte,
        List.mem_singleton] at ha
      exact ⟨i, ha, le_refl i, by omega⟩

/-- C7: for a keyboard-state array of `SDL_NUM_SCANCODES` entries, `kbhit` pumps
the events, asks for the array, and returns a value that is 0 or 1 and is 1
exactly when some entry with index below `SDL_NUM_SCANCODES` is non-zero; every
index it reads is below `SDL_NUM_SCANCODES`. -/
theorem kbhit_returns_any_key (K : SDLHeader) (L : Library) (g : Globals)
    (hlen : L.state.length = K.SDL_NUM_SCANCODES) :
    ∃ r : Int, (kbhit K L g).outcome = .returned (some r) ∧ (r = 0 ∨ r = 1) ∧
      (r = 1 ↔ ∃ i, i < K.SDL_NUM_SCANCODES ∧ ∃ v, L.state[i]? = some v ∧ v ≠ 0) ∧
      (∀ i, .read_state i ∈ (kbhit K L g).trace → i < K.SDL_NUM_SCANCODES) ∧
      (kbhit K L g).trace.filter Action.isSDL = [.SDL_PumpEvents, .SDL_GetKeyboardState] ∧
      (kbhit K L g).trace.take 2 = [.SDL_PumpEvents, .SDL_GetKeyboardState] ∧
      (kbhit K L g).globals = g := by
  obtain ⟨r, hr, h01, hiff, hreads⟩ :=
    kbhit_loop_spec L.state K.SDL_NUM_SCANCODES 0 (by omega)
  refine ⟨r, by simp [kbhit, hr], h01, ?_, ?_, ?_, rfl, rfl⟩
  · rw [hiff]
    constructor
    · rintro ⟨j, _, h2, h3⟩
      exact ⟨j, by omega, h3⟩
    · rintro ⟨j, h2, h3⟩
      exact ⟨j, Nat.zero_le j, by omega, h3⟩
  · intro i hi
    simp only [kbhit, List.cons_append, List.nil_append, List.mem_cons] at hi
    rcases hi with hi | hi | hi
    · cases hi
    · cases hi
    · obtain ⟨j, h1, _, h3⟩ := hreads _ hi
      cases h1
      omega
  · have : (kbhit_loop L.state 0 K.SDL_NUM_SCANCODES).1.filter Action.isSDL = [] := by
      rw [List.filter_eq_nil_iff]
      intro a ha
      obtain ⟨j, h1, _⟩ := hreads a ha
      simp [h1, Action.isSDL]
    simp [kbhit, List.filter_cons, Action.isSDL, this]

/-- Witness of C7: with 512 entries, all zero, `kbhit` returns 0 or 1. -/
theorem kbhit_returns_any_key_witness :
    lib_ok.state.length = sdl2.SDL_NUM_SCANCODES ∧
    ∃ r : Int, (kbhit sdl2 lib_ok Globals.initial).outcome = .returned (some r) ∧
      (r = 0 ∨ r = 1) :=
  ⟨List.length_replicate 512 0,
    (kbhit_returns_any_key sdl2 lib_ok Globals.initial (List.length_replicate 512 0)).imp
      fun _ h => ⟨h.1, h.2.1⟩⟩

/-! ## `display_close` -/

lemma poll_batch_eq (K : SDLHeader) (evs : List Nat) :
    ∀ done, poll_batch K done evs = (done || has_exit_event K evs, batch_polls evs) := by
  induction evs with
  | nil => intro done; simp [poll_batch, has_exit_event, batch_polls]
  | cons ty rest ih =>
    intro done
    simp only [poll_batch, ih, has_exit_event, batch_polls, List.any_cons, List.map_cons,
      List.cons_append, Prod.mk.injEq, and_true]
    cases done <;> cases is_exit_event K ty <;> simp

lemma wait_loop_blocked (K : SDLHeader) (queue : Nat → List Nat) (fuel : Nat) :
    ∀ i, (∀ j, i ≤ j → j < i + fuel → has_exit_event K (queue j) = false) →
      wait_loop K queue fuel i false = (none, batches_polls queue i fuel) := by
  induction fuel with
  | zero => intro i _; rfl
  | succ fuel ih =>
    intro i h
    have hi := h i (le_refl i) (by omega)
    have hrest := ih (i + 1) (fun j h1 h2 => h j (by omega) (by omega))
    simp [wait_loop, poll_batch_eq, hi, hrest, batches_polls]

lemma wait_loop_leaves (K : SDLHeader) (queue : Nat → List Nat) (k : Nat) :
    ∀ i fuel, k < fuel →
      (∀ j, i ≤ j → j < i + k → has_exit_event K (queue j) = false) →
      has_exit_event K (queue (i + k)) = true →
      wait_loop K queue fuel i false = (some (i + k + 1), batches_polls queue i (k + 1)) := by
  induction k with
  | zero =>
    intro i fuel hf _ hk
    obtain ⟨fuel, rfl⟩ : ∃ f, fuel = f + 1 := ⟨fuel - 1, by omega⟩
    simp only [Nat.add_zero] at hk
    simp [wait_loop, poll_batch_eq, hk, batches_polls]
  | succ k ih =>
    intro i fuel hf h hk
    obtain ⟨fuel, rfl⟩ : ∃ f, fuel = f + 1 := ⟨fuel - 1, by omega⟩
    have hi := h i (le_refl i) (by omega)
    have hrest := ih (i + 1) fuel (by omega) (fun j h1 h2 => h j (by omega) (by omega))
      (by rw [show i + 1 + k = i + (k + 1) by omega]; exact hk)
    rw [wait_loop]
    simp only [poll_batch_eq, hi, Bool.or_self, hrest]
    rw [show i + 1 + k + 1 = i + (k + 1) + 1 by omega]
    rfl

lemma mem_batches_polls (queue : Nat → List Nat) (n : Nat) :
    ∀ i a, a ∈ batches_polls queue i n ↔
      ∃ j, i ≤ j ∧ j < i + n ∧ a ∈ batch_polls (queue j) := by
  induction n with
  | zero =>
    intro i a
    simp only [batches_polls, List.not_mem_nil, false_iff]
    rintro ⟨j, h1, h2, _⟩
    omega
  | succ n ih =>
    intro i a
    simp only [batches_polls, List.mem_append, ih]
    constructor
    · rintro (h | ⟨j, h1, h2, h3⟩)
      · exact ⟨i, le_refl i, by omega, h⟩
      · exact ⟨j, by omega, by omega, h3⟩
    · rintro ⟨j, h1, h2, h3⟩
      by_cases hj : j = i
      · exact Or.inl (hj ▸ h3)
      · exact Or.inr ⟨j, by omega, by omega, h3⟩

lemma batches_polls_only_polls (queue : Nat → List Nat) (i n : Nat) (a : Action)
    (h : a ∈ batches_polls queue i n) : ∃ r, a = .SDL_PollEvent r := by
  obtain ⟨j, _, _, hj⟩ := (mem_batches_polls queue n i a).1 h
  simp only [batch_polls, List.mem_append, List.mem_map, List.mem_singleton] at hj
  rcases hj with ⟨ty, _, rfl⟩ | rfl
  · exact ⟨some ty, rfl⟩
  · exact ⟨none, rfl⟩

lemma has_exit_event_iff (K : SDLHeader) (evs : List Nat) :
    has_exit_event K evs = true ↔
      ∃ ty ∈ evs, ty = K.SDL_QUIT ∨ ty = K.SDL_KEYDOWN ∨ ty = K.SDL_MOUSEBUTTONDOWN := by
  simp [has_exit_event, is_exit_event, or_assoc]

/-- C4: with `wait_flag = 0`, `display_close` polls nothing and its actions are
exactly the teardown.  With `wait_flag` non-zero: if batch `k` is the first
batch of the queue holding a quit, key-down or mouse-button-down event, then
(followed for more than `k` iterations) it polls batches `0..k` whole, one
`SDL_PollEvent` per event and one returning 0 per batch, and then tears down and
returns; as long as no followed batch holds such an event it only polls and is
still waiting; and whenever a teardown action occurs in its trace, the trace is
the polls of batches `0..k` followed by the teardown, `k` being the first batch
that holds such an event. -/
theorem display_close_waits_for_exit_event (K : SDLHeader) (L : Library) (g : Globals) :
    (∀ fuel, display_close K L fuel g 0 =
      { trace := teardown g, globals := g, outcome := .returned none }) ∧
    (∀ wait_flag fuel k, wait_flag ≠ 0 → k < fuel →
      (∀ j, j < k → has_exit_event K (L.queue j) = false) →
      has_exit_event K (L.queue k) = true →
      display_close K L fuel g wait_flag =
        { trace := batches_polls L.queue 0 (k + 1) ++ teardown g, globals := g,
          outcome := .returned none }) ∧
    (∀ wait_flag fuel, wait_flag ≠ 0 →
      (∀ j, j < fuel → has_exit_event K (L.queue j) = false) →
      display_close K L fuel g wait_flag =
        { trace := batches_polls L.queue 0 fuel, globals := g, outcome := .waiting }) ∧
    (∀ wait_flag fuel, wait_flag ≠ 0 →
      (∃ a ∈ (display_close K L fuel g wait_flag).trace, a ∈ teardown g) →
      ∃ k, k < fuel ∧ (∀ j, j < k → has_exit_event K (L.queue j) = false) ∧
        has_exit_event K (L.queue k) = true ∧
        (display_close K L fuel g wait_flag).trace =
          batches_polls L.queue 0 (k + 1) ++ teardown g) ∧
    (∀ evs, has_exit_event K evs = true ↔
      ∃ ty ∈ evs, ty = K.SDL_QUIT ∨ ty = K.SDL_KEYDOWN ∨ ty = K.SDL_MOUSEBUTTONDOWN) := by
  have hb : ∀ wait_flag fuel k, wait_flag ≠ 0 → k < fuel →
      (∀ j, j < k → has_exit_event K (L.queue j) = false) →
      has_exit_event K (L.queue k) = true →
      display_close K L fuel g wait_flag =
        { trace := batches_polls L.queue 0 (k + 1) ++ teardown g, globals := g,
          outcome := .returned none } := by
    intro wait_flag fuel k hw hk hno hex
    have := wait_loop_leaves K L.queue k 0 fuel hk
      (fun j _ h2 => hno j (by omega)) (by simpa using hex)
    simp [display_close, hw, this]
  have hc : ∀ wait_flag fuel, wait_flag ≠ 0 →
      (∀ j, j < fuel → has_exit_event K (L.queue j) = false) →
      display_close K L fuel g wait_flag =
        { trace := batches_polls L.queue 0 fuel, globals := g, outcome := .waiting } := by
    intro wait_flag fuel hw hno
    have := wait_loop_blocked K L.queue fuel 0 (fun j _ h2 => hno j (by omega))
    simp [display_close, hw, this]
  refine ⟨fun fuel => by simp [display_close], hb, hc, ?_, has_exit_event_iff K⟩
  intro wait_flag fuel hw ⟨a, hat, hag⟩
  by_cases hex : ∃ k, k < fuel ∧ has_exit_event K (L.queue k) = true
  · classical
    have hmin : ∀ m, m < Nat.find hex →
        ¬ (m < fuel ∧ has_exit_event K (L.queue m) = true) := fun m => Nat.find_min hex
    obtain ⟨hlt, hk⟩ := Nat.find_spec hex
    have hno : ∀ j, j < Nat.find hex → has_exit_event K (L.queue j) = false := by
      intro j hj
      have := hmin j hj
      simp only [not_and, Bool.not_eq_true] at this
      exact this (by omega)
    exact ⟨Nat.find hex, hlt, hno, hk, by rw [hb wait_flag fuel _ hw hlt hno hk]⟩
  · exfalso
    have hno : ∀ j, j < fuel → has_exit_event K (L.queue j) = false := by
      intro j hj
      by_contra hne
      exact hex ⟨j, hj, by simpa using hne⟩
    rw [hc wait_flag fuel hw hno] at hat
    obtain ⟨r, rfl⟩ := batches_polls_only_polls _ _ _ _ hat
    simp [teardown] at hag

/-- Witness of C4: with a mouse-motion event in the first batch and a key-down
event in the second, `display_close(1)` polls both batches whole and then tears
down. -/
theorem display_close_waits_for_exit_event_witness :
    (display_close sdl2 lib_ok 5 Globals.initial 1).trace =
      [.SDL_PollEvent (some 0x400), .SDL_PollEvent none,
       .SDL_PollEvent (some 0x300), .SDL_PollEvent (some 0x301), .SDL_PollEvent none,
       .SDL_DestroyRenderer 0, .SDL_DestroyWindow 0, .SDL_Quit] :=
  congrArg Run.trace
    ((display_close_waits_for_exit_event sdl2 lib_ok Globals.initial).2.1 1 5 1
      (by decide) (by decide) (by decide) (by decide))

/-! ## The configuration scalars -/

/-- C6: `width`, `height` and `depth` start as 512, 512, 8; two runs of any
driver function from globals that agree on `window` and `renderer` (and so
differ at most in `width`, `height`, `depth`) perform the same actions, end the
same way and leave the same `window` and `renderer`; and every driver function,
`display_init` with any `xres`, `yres` included, leaves `width`, `height` and
`depth` as they were. -/
theorem config_scalars_never_used (K : SDLHeader) (L : Library) (fuel : Nat) (op : Op)
    (g g' : Globals) (hw : g.window = g'.window) (hr : g.renderer = g'.renderer) :
    (Globals.initial.width = 512 ∧ Globals.initial.height = 512 ∧
      Globals.initial.depth = 8) ∧
    (op.run K L fuel g).trace = (op.run K L fuel g').trace ∧
    (op.run K L fuel g).outcome = (op.run K L fuel g').outcome ∧
    (op.run K L fuel g).globals.window = (op.run K L fuel g').globals.window ∧
    (op.run K L fuel g).globals.renderer = (op.run K L fuel g').globals.renderer ∧
    (op.run K L fuel g).globals.width = g.width ∧
    (op.run K L fuel g).globals.height = g.height ∧
    (op.run K L fuel g).globals.depth = g.depth := by
  refine ⟨⟨rfl, rfl, rfl⟩, ?_⟩
  cases op with
  | display_clear => simp [Op.run, display_clear, hw, hr]
  | display_init xres yres bk_color =>
    simp only [Op.run, display_init]
    split_ifs <;> simp [hw, hr]
  | display_close wait_flag =>
    simp only [Op.run, display_close, teardown]
    split_ifs
    · split <;> simp [hw, hr]
    · simp [hw, hr]
  | display_plot x y color => simp [Op.run, display_plot, hw, hr]
  | display_line x0 y0 x1 y1 color => simp [Op.run, display_line, hw, hr]
  | kbhit => simp [Op.run, kbhit, hw, hr]

/-- Witness of C6: `display_init(640, 480, orange)` run from the initial globals
and from globals with another `width`, `height` and `depth` performs the same
actions and leaves `width` at 512 in the first. -/
theorem config_scalars_never_used_witness :
    (Op.run sdl2 lib_ok 5 Globals.initial (.display_init 640 480 orange)).trace =
      (Op.run sdl2 lib_ok 5 { Globals.initial with width := 640, height := 480, depth := 24 }
        (.display_init 640 480 orange)).trace ∧
    (Op.run sdl2 lib_ok 5 Globals.initial (.display_init 640 480 orange)).globals.width = 512 :=
  have h := config_scalars_never_used sdl2 lib_ok 5 (.display_init 640 480 orange)
    Globals.initial { Globals.initial with width := 640, height := 480, depth := 24 } rfl rfl
  ⟨h.2.1, h.2.2.2.2.2.1⟩

/-! ## Lifetimes of the window and the renderer -/

lemma safe_from_ok (s : Live) (t : List Action) (h : safe_from s t) : s.ok := by
  cases t with
  | nil => exact h
  | cons a t => exact h.1

lemma safe_from_initial_segment (t : List Action) :
    ∀ s, safe_from s t → ∀ p, p <+: t → (p.foldl Live.step s).ok := by
  induction t with
  | nil =>
    intro s h p hp
    rw [List.prefix_nil.mp hp]
    exact h
  | cons a t ih =>
    intro s h p hp
    cases p with
    | nil => exact h.1
    | cons b q =>
      obtain ⟨rfl, hq⟩ := List.cons_prefix_cons.mp hp
      exact ih _ h.2.2 q hq

lemma safe_from_admits (t : List Action) :
    ∀ s, safe_from s t → ∀ p a rest, t = p ++ a :: rest →
      (p.foldl Live.step s).admits a := by
  induction t with
  | nil =>
    intro s _ p a rest h
    simp at h
  | cons b t ih =>
    intro s h p a rest heq
    cases p with
    | nil =>
      simp only [List.nil_append, List.cons.injEq] at heq
      rw [← heq.1]
      exact h.2.1
    | cons c q =>
      simp only [List.cons_append, List.cons.injEq] at heq
      rw [← heq.1]
      exact ih _ h.2.2 q a rest heq.2

lemma safe_from_polls (polls : List Action) (hp : ∀ a ∈ polls, ∃ r, a = .SDL_PollEvent r) :
    ∀ s t, safe_from s t → safe_from s (polls ++ t) := by
  induction polls with
  | nil => intro s t h; exact h
  | cons a rest ih =>
    intro s t h
    obtain ⟨r, rfl⟩ := hp a (List.mem_cons_self _ _)
    exact ⟨safe_from_ok s t h, trivial,
      ih (fun b hb => hp b (List.mem_cons_of_mem _ hb)) s t h⟩

lemma wait_loop_only_polls (K : SDLHeader) (queue : Nat → List Nat) (fuel : Nat) :
    ∀ i done, ∀ a ∈ (wait_loop K queue fuel i done).2, ∃ r, a = .SDL_PollEvent r := by
  induction fuel with
  | zero =>
    intro i done a ha
    cases done <;> simp [wait_loop] at ha
  | succ fuel ih =>
    intro i done a ha
    cases done with
    | true => simp [wait_loop] at ha
    | false =>
      simp only [wait_loop, poll_batch_eq, List.mem_append] at ha
      rcases ha with ha | ha
      · simp only [batch_polls, List.mem_append, List.mem_map, List.mem_singleton] at ha
        rcases ha with ⟨ty, _, rfl⟩ | rfl
        · exact ⟨some ty, rfl⟩
        · exact ⟨none, rfl⟩
      · exact ih _ _ a ha

/-- The trace of `display_close` is a run of polls followed by the teardown or
by nothing. -/
lemma display_close_trace_shape (K : SDLHeader) (L : Library) (fuel : Nat) (g : Globals)
    (wait_flag : Int) :
    ∃ polls, (∀ a ∈ polls, ∃ r, a = .SDL_PollEvent r) ∧
      ((display_close K L fuel g wait_flag).trace = polls ++ teardown g ∨
       (display_close K L fuel g wait_flag).trace = polls ++ []) := by
  by_cases hw : wait_flag = 0
  · exact ⟨[], by simp, Or.inl (by simp [display_close, hw])⟩
  · refine ⟨(wait_loop K L.queue fuel 0 false).2, wait_loop_only_polls K L.queue fuel 0 false, ?_⟩
    simp only [display_close, hw, ne_eq, not_false_eq_true, ↓reduceIte]
    split
    · exact Or.inr (by simp)
    · exact Or.inl rfl

/-- The trace of `display_init` followed by `display_close` keeps the invariant
and respects the lifetimes throughout. -/
lemma init_then_close_safe (K : SDLHeader) (L : Library) (fuel : Nat) (g : Globals)
    (xres yres : Int) (bk_color : COORD3) (wait_flag : Int) :
    safe_from { windows := [], renderers := [] }
      (init_then_close K L fuel g xres yres bk_color wait_flag).trace := by
  by_cases h0 : L.init_ret = 0
  · by_cases h1 : L.window_ret = 0
    · simp [init_then_close, display_init, h0, h1, safe_from, Live.ok, Live.admits, Live.step]
    · by_cases h2 : L.renderer_ret = 0
      · simp [init_then_close, display_init, h0, h1, h2, safe_from, Live.ok, Live.admits,
          Live.step]
      · obtain ⟨polls, hp, hshape⟩ := display_close_trace_shape K L fuel
          { g with window := L.window_ret, renderer := L.renderer_ret } wait_flag
        have hs : ∀ t,
            safe_from
              { windows := [L.window_ret], renderers := [(L.renderer_ret, L.window_ret)] } t →
            safe_from { windows := [], renderers := [] }
              ((display_init K L g xres yres bk_color).trace ++ polls ++ t) := by
          intro t ht
          have := safe_from_polls polls hp _ t ht
          simp only [display_init, h0, h1, h2, ne_eq, not_true_eq_false, not_false_eq_true,
            ↓reduceIte, List.cons_append, List.nil_append, List.append_assoc, safe_from,
            Live.ok, Live.admits, Live.step]
          simpa using this
        have hinit : (init_then_close K L fuel g xres yres bk_color wait_flag).trace =
            (display_init K L g xres yres bk_color).trace ++
              (display_close K L fuel
                { g with window := L.window_ret, renderer := L.renderer_ret } wait_flag).trace := by
          simp [init_then_close, display_init, h0, h1, h2]
        rw [hinit]
        rcases hshape with h | h
        · rw [h, ← List.append_assoc]
          apply hs
          simp [teardown, safe_from, Live.ok, Live.admits, Live.step]
        · rw [h, ← List.append_assoc]
          apply hs
          simp [safe_from, Live.ok]
  · simp [init_then_close, display_init, h0, safe_from, Live.ok, Live.admits, Live.step]

/-- C3: at every point of the trace of `display_init` followed by
`display_close`, every live renderer is on a live window; each
`SDL_CreateRenderer` call is given a non-null window that is alive at that
point, so created before by `SDL_CreateWindow`; and at each `SDL_DestroyWindow`
call, in `display_close` as in the renderer-failure branch of `display_init`, no
renderer is alive: it was destroyed before, or never created. -/
theorem renderer_lives_within_window (K : SDLHeader) (L : Library) (fuel : Nat)
    (g : Globals) (xres yres : Int) (bk_color : COORD3) (wait_flag : Int) :
    (∀ p, p <+: (init_then_close K L fuel g xres yres bk_color wait_flag).trace →
      ∀ r ∈ (live_after p).renderers, r.2 ∈ (live_after p).windows) ∧
    (∀ p w index flags ret rest,
      (init_then_close K L fuel g xres yres bk_color wait_flag).trace =
        p ++ .SDL_CreateRenderer w index flags ret :: rest →
      w ≠ 0 ∧ w ∈ (live_after p).windows) ∧
    (∀ p w rest,
      (init_then_close K L fuel g xres yres bk_color wait_flag).trace =
        p ++ .SDL_DestroyWindow w :: rest →
      (live_after p).renderers = []) :=
  ⟨fun p hp => safe_from_initial_segment _ _
      (init_then_close_safe K L fuel g xres yres bk_color wait_flag) p hp,
    fun p w index flags ret rest h => safe_from_admits _ _
      (init_then_close_safe K L fuel g xres yres bk_color wait_flag) p
      (.SDL_CreateRenderer w index flags ret) rest h,
    fun p w rest h => safe_from_admits _ _
      (init_then_close_safe K L fuel g xres yres bk_color wait_flag) p
      (.SDL_DestroyWindow w) rest h⟩

/-- Witness of C3: in the run that creates window `0x1000` and renderer
`0x2000` and closes without waiting, the renderer is created on the live window
`0x1000`. -/
theorem renderer_lives_within_window_witness :
    (0x1000 : Ptr) ≠ 0 ∧ (0x1000 : Ptr) ∈ (live_after
      [.SDL_Init 0x20 0,
       .SDL_CreateWindow "SDL Driver" 0x2FFF0000 0x2FFF0000 640 480 0x4 0x1000]).windows :=
  (renderer_lives_within_window sdl2 lib_ok 5 Globals.initial 640 480 orange 0).2.1
    [.SDL_Init 0x20 0,
     .SDL_CreateWindow "SDL Driver" 0x2FFF0000 0x2FFF0000 640 480 0x4 0x1000]
    0x1000 (-1) 6 0x2000
    [.SDL_SetRenderDrawColor 0x2000 (channel 1) (channel (1 / 2)) (channel 0) 255,
     .SDL_RenderClear 0x2000, .SDL_RenderPresent 0x2000,
     .SDL_DestroyRenderer 0x2000, .SDL_DestroyWindow 0x1000, .SDL_Quit]
    rfl

/-! ## Number and order of the library calls -/

lemma kbhit_loop_only_reads (state : List Nat) (n : Nat) :
    ∀ i, (kbhit_loop state i n).1.filter Action.isSDL = [] := by
  induction n with
  | zero => intro i; rfl
  | succ n ih =>
    intro i
    rw [kbhit_loop]
    split
    · rfl
    · split
      · rfl
      · simp [List.filter_cons, Action.isSDL, ih]

lemma batches_polls_filter (queue : Nat → List Nat) (i n : Nat) :
    (batches_polls queue i n).filter Action.isSDL = batches_polls queue i n := by
  rw [List.filter_eq_self]
  intro a ha
  obtain ⟨r, rfl⟩ := batches_polls_only_polls queue i n a ha
  rfl

lemma batches_polls_length (queue : Nat → List Nat) (n : Nat) :
    ∀ i, n ≤ (batches_polls queue i n).length := by
  induction n with
  | zero => intro i; simp
  | succ n ih =>
    intro i
    have := ih (i + 1)
    simp only [batches_polls, batch_polls, List.length_append, List.length_map,
      List.length_singleton]
    omega

/-- Counterexample to C5: a `display_init` in which the three checked calls
succeed issues six library calls, and `display_close(1)` on a queue whose second
batch holds the first key-down event issues eight, five of them polls that
`display_close(0)` does not issue. -/
theorem driver_calls_exceed_four :
    (sdl_calls (display_init sdl2 lib_ok Globals.initial 640 480 orange)).length = 6 ∧
    ¬ (sdl_calls (display_init sdl2 lib_ok Globals.initial 640 480 orange)).length ≤ 4 ∧
    (sdl_calls (display_close sdl2 lib_ok 5 Globals.initial 1)).length = 8 ∧
    (sdl_calls (display_close sdl2 lib_ok 5 Globals.initial 0)).length = 3 := by
  refine ⟨rfl, by decide, by decide, by decide⟩

/-- C5, amended: `display_clear`, `display_plot` and `display_line` issue three
library calls each, `kbhit` two and `display_close(0)` three, always the same
sequence; `display_init` issues one of four sequences of two, four, six and six
library calls, chosen by the three error checks alone; `display_close` with a
non-zero `wait_flag` issues, before the three teardown calls, the polls that
consume the queue up to and including the first batch `k` with a quit, key-down
or mouse-button-down event, which are more than `k`. -/
theorem driver_call_sequences (K : SDLHeader) (L : Library) (g : Globals)
    (x y x0 y0 x1 y1 xres yres : Int) (color : COORD3) :
    sdl_calls (display_clear g) =
      [.SDL_SetRenderDrawColor g.renderer 0 0 0 255, .SDL_RenderClear g.renderer,
       .SDL_RenderPresent g.renderer] ∧
    sdl_calls (display_plot g x y color) =
      [.SDL_SetRenderDrawColor g.renderer (channel (color 0)) (channel (color 1))
         (channel (color 2)) 255,
       .SDL_RenderDrawPoint g.renderer x y, .SDL_RenderPresent g.renderer] ∧
    sdl_calls (display_line g x0 y0 x1 y1 color) =
      [.SDL_SetRenderDrawColor g.renderer (channel (color 0)) (channel (color 1))
         (channel (color 2)) 255,
       .SDL_RenderDrawLine g.renderer x0 y0 x1 y1, .SDL_RenderPresent g.renderer] ∧
    sdl_calls (kbhit K L g) = [.SDL_PumpEvents, .SDL_GetKeyboardState] ∧
    (∀ fuel, sdl_calls (display_close K L fuel g 0) =
      [.SDL_DestroyRenderer g.renderer, .SDL_DestroyWindow g.window, .SDL_Quit]) ∧
    (L.init_ret ≠ 0 → sdl_calls (display_init K L g xres yres color) =
      [.SDL_Init K.SDL_INIT_VIDEO L.init_ret, .SDL_GetError]) ∧
    (L.init_ret = 0 → L.window_ret = 0 → sdl_calls (display_init K L g xres yres color) =
      [.SDL_Init K.SDL_INIT_VIDEO 0,
       .SDL_CreateWindow "SDL Driver" K.SDL_WINDOWPOS_CENTERED K.SDL_WINDOWPOS_CENTERED
         xres yres K.SDL_WINDOW_SHOWN 0,
       .SDL_GetError, .SDL_Quit]) ∧
    (L.init_ret = 0 → L.window_ret ≠ 0 → L.renderer_ret = 0 →
      sdl_calls (display_init K L g xres yres color) =
      [.SDL_Init K.SDL_INIT_VIDEO 0,
       .SDL_CreateWindow "SDL Driver" K.SDL_WINDOWPOS_CENTERED K.SDL_WINDOWPOS_CENTERED
         xres yres K.SDL_WINDOW_SHOWN L.window_ret,
       .SDL_CreateRenderer L.window_ret (-1)
         (K.SDL_RENDERER_ACCELERATED ||| K.SDL_RENDERER_PRESENTVSYNC) 0,
       .SDL_DestroyWindow L.window_ret, .SDL_GetError, .SDL_Quit]) ∧
    (L.init_ret = 0 → L.window_ret ≠ 0 → L.renderer_ret ≠ 0 →
      sdl_calls (display_init K L g xres yres color) =
      [.SDL_Init K.SDL_INIT_VIDEO 0,
       .SDL_CreateWindow "SDL Driver" K.SDL_WINDOWPOS_CENTERED K.SDL_WINDOWPOS_CENTERED
         xres yres K.SDL_WINDOW_SHOWN L.window_ret,
       .SDL_CreateRenderer L.window_ret (-1)
         (K.SDL_RENDERER_ACCELERATED ||| K.SDL_RENDERER_PRESENTVSYNC) L.renderer_ret,
       .SDL_SetRenderDrawColor L.renderer_ret (channel (color 0)) (channel (color 1))
         (channel (color 2)) 255,
       .SDL_RenderClear L.renderer_ret, .SDL_RenderPresent L.renderer_ret]) ∧
    (∀ wait_flag fuel k, wait_flag ≠ 0 → k < fuel →
      (∀ j, j < k → has_exit_event K (L.queue j) = false) →
      has_exit_event K (L.queue k) = true →
      sdl_calls (display_close K L fuel g wait_flag) =
        batches_polls L.queue 0 (k + 1) ++
          [.SDL_DestroyRenderer g.renderer, .SDL_DestroyWindow g.window, .SDL_Quit] ∧
      k < (batches_polls L.queue 0 (k + 1)).length) := by
  refine ⟨rfl, rfl, rfl, ?_, fun fuel => by simp [sdl_calls, display_close, teardown,
    Action.isSDL], fun h0 => ?_, fun h0 h1 => ?_, fun h0 h1 h2 => ?_, fun h0 h1 h2 => ?_, ?_⟩
  · simp [sdl_calls, kbhit, List.filter_cons, Action.isSDL, kbhit_loop_only_reads]
  · simp [sdl_calls, display_init, h0, Action.isSDL]
  · simp [sdl_calls, display_init, h0, h1, Action.isSDL]
  · simp [sdl_calls, display_init, h0, h1, h2, Action.isSDL]
  · simp [sdl_calls, display_init, h0, h1, h2, Action.isSDL]
  · intro wait_flag fuel k hw hk hno hex
    have := wait_loop_leaves K L.queue k 0 fuel hk
      (fun j _ h2 => hno j (by omega)) (by simpa using hex)
    refine ⟨?_, batches_polls_length L.queue (k + 1) 0⟩
    simp [sdl_calls, display_close, hw, this, batches_polls_filter, teardown, Action.isSDL]

/-- Witness of C5, amended: with a failing `SDL_CreateRenderer`, `display_init`
issues the six calls of its renderer-failure branch. -/
theorem driver_call_sequences_witness :
    lib_no_renderer.init_ret = 0 ∧ lib_no_renderer.window_ret ≠ 0 ∧
    lib_no_renderer.renderer_ret = 0 ∧
    sdl_calls (display_init sdl2 lib_no_renderer Globals.initial 640 480 orange) =
      [.SDL_Init 0x20 0,
       .SDL_CreateWindow "SDL Driver" 0x2FFF0000 0x2FFF0000 640 480 0x4 0x1000,
       .SDL_CreateRenderer 0x1000 (-1) 6 0,
       .SDL_DestroyWindow 0x1000, .SDL_GetError, .SDL_Quit] :=
  ⟨rfl, by decide, rfl,
    (driver_call_sequences sdl2 lib_no_renderer Globals.initial 0 0 0 0 0 0 640 480
      orange).2.2.2.2.2.2.2.1 rfl (by decide) rfl⟩

end DrvSdl
